import Mathlib

set_option linter.unusedVariables false

/-!
Verification of the `universal-mcp/calendly` client
(`src/universal_mcp_calendly/app.py`).

The client is a thin binding over the Calendly REST API: every method
validates its required path parameters, builds a URL by f-string
substitution, filters `None` out of its query-parameter / body mappings,
issues exactly one HTTP request through the inherited
`APIApplication._get/_post/_delete` helpers, calls
`response.raise_for_status()` and returns `response.json()`.

The inherited transport and response handling live in the external
`universal_mcp` package (not part of this repository's sources); they are
modelled here from the specification: a `Transport` is a function from
requests to raw responses, and `handleResponse` implements
`raise_for_status` followed by `json()` (2xx: decode the body as JSON and
return it; otherwise raise an HTTP error carrying status and body).
Every operation returns, besides its result, the final client state and
the list of requests it handed to the transport, so that statelessness
and "no network call before validation" are expressible.
-/

/-- Python/JSON values, as passed for parameters and returned in response
documents.  `null` plays the role of Python `None`. -/
inductive Json where
  | null : Json
  | bool : Bool → Json
  | num : Int → Json
  | str : String → Json
  | arr : List Json → Json
  | obj : List (String × Json) → Json

/-- The test `v is None` used by the required-parameter guards and by the
comprehension filters `if v is not None` in the source. -/
def Json.isNone : Json → Bool
  | .null => true
  | _ => false

mutual

/-- Python `repr` on the embedded values (only scalar values ever reach the
source's f-strings in the verified properties; the sequence cases follow
Python's list/dict printing). -/
def pyRepr : Json → String
  | .null => "None"
  | .bool true => "True"
  | .bool false => "False"
  | .num n => toString n
  | .str s => "\x27" ++ s ++ "\x27"
  | .arr xs => "[" ++ pyReprSeq xs ++ "]"
  | .obj kvs => "\x7b" ++ pyReprFields kvs ++ "\x7d"

/-- Comma-separated `repr`s of list elements. -/
def pyReprSeq : List Json → String
  | [] => ""
  | [x] => pyRepr x
  | x :: y :: xs => pyRepr x ++ ", " ++ pyReprSeq (y :: xs)

/-- Comma-separated `repr`s of dict entries. -/
def pyReprFields : List (String × Json) → String
  | [] => ""
  | [(k, v)] => "\x27" ++ k ++ "\x27: " ++ pyRepr v
  | (k, v) :: y :: xs =>
      "\x27" ++ k ++ "\x27: " ++ pyRepr v ++ ", " ++ pyReprFields (y :: xs)

end

/-- Python `str`, as applied by the source's f-strings when substituting a
path parameter into a URL (identity on strings, `repr` otherwise). -/
def pyStr : Json → String
  | .str s => s
  | v => pyRepr v

/-- The comprehension `{k: v for k, v in entries if v is not None}` used by
every operation to drop absent optional parameters (keys in the source
lists are distinct, so the dict is faithfully a filtered association
list). -/
def filterNotNone (entries : List (String × Json)) : List (String × Json) :=
  entries.filter (fun kv => !(kv.2.isNone))

/-- The external credential collaborator (`universal_mcp` `Integration`);
opaque for this layer. -/
structure Integration where
  token : String

/-- The client state: the fields `__init__` sets (via the superclass for
`name` and `integration`) and never touched again. -/
structure CalendlyApp where
  name : String
  integration : Option Integration
  base_url : String

/-- `CalendlyApp.__init__`: delegates `name="calendly"` and the integration
to the superclass initializer, then sets `base_url`. -/
def CalendlyApp.init (integration : Option Integration) : CalendlyApp :=
  ⟨"calendly", integration, "https://api.calendly.com"⟩

/-- HTTP methods used by the client. -/
inductive HttpMethod where
  | GET : HttpMethod
  | POST : HttpMethod
  | DELETE : HttpMethod

/-- A fully assembled request as handed to the transport helpers: method,
resolved URL, query-parameter mapping, and (for POST) the body mapping. -/
structure Request where
  method : HttpMethod
  url : String
  params : List (String × Json)
  data : Option (List (String × Json))

/-- Modelled from the spec (§4.3, §9): a raw response is a status code and
a body; `body = some d` when the raw body decodes to the JSON document
`d`, and `body = none` when it is not valid JSON (e.g. an empty
no-content body). -/
structure Response where
  status : Nat
  body : Option Json

/-- The error taxonomy: `valueError` is the `ValueError` raised by the
required-parameter guards (`MissingParameterError` in the spec),
`httpError` carries status code and body of a non-2xx response, and
`decodeError` is the failure of `response.json()` on a non-JSON body. -/
inductive Err where
  | valueError : String → Err
  | httpError : Nat → Option Json → Err
  | decodeError : Err

/-- Modelled from the spec (§4.2): the transport issues one HTTP request
and returns the raw response; credential attachment is internal to it. -/
abbrev Transport : Type := Request → Response

/-- Modelled from the spec (§4.3): `response.raise_for_status()` followed
by `response.json()` — status in [200,299]: decode the body as JSON and
return it unmodified (failing with a decode error when the body is not
JSON); any other status: fail with an HTTP error carrying status code and
body.  (These live in `universal_mcp`/httpx, outside this repository's
sources.) -/
def handleResponse (r : Response) : Except Err Json :=
  if 200 ≤ r.status ∧ r.status ≤ 299 then
    match r.body with
    | some d => .ok d
    | none => .error .decodeError
  else
    .error (.httpError r.status r.body)

/-- The outcome of running one operation: the client state after the call,
the returned value or raised error, and the requests handed to the
transport (in order). -/
structure OpOut where
  app : CalendlyApp
  ret : Except Err Json
  calls : List Request

/-- `response = self._get(url, params=query_params);
response.raise_for_status(); return response.json()` — the shared tail of
every GET operation. -/
def doGET (app : CalendlyApp) (t : Transport) (url : String)
    (query_params : List (String × Json)) : OpOut :=
  let req : Request := ⟨.GET, url, query_params, Option.none⟩
  ⟨app, handleResponse (t req), [req]⟩

/-- `response = self._post(url, data=request_body, params=query_params);
response.raise_for_status(); return response.json()` — the shared tail of
every POST operation. -/
def doPOST (app : CalendlyApp) (t : Transport) (url : String)
    (request_body : List (String × Json))
    (query_params : List (String × Json)) : OpOut :=
  let req : Request := ⟨.POST, url, query_params, some request_body⟩
  ⟨app, handleResponse (t req), [req]⟩

/-- `response = self._delete(url, params=query_params);
response.raise_for_status(); return response.json()` — the shared tail of
every DELETE operation. -/
def doDELETE (app : CalendlyApp) (t : Transport) (url : String)
    (query_params : List (String × Json)) : OpOut :=
  let req : Request := ⟨.DELETE, url, query_params, Option.none⟩
  ⟨app, handleResponse (t req), [req]⟩

/-- `CalendlyApp.list_event_invitees`. -/
def CalendlyApp.list_event_invitees (app : CalendlyApp) (t : Transport)
    (uuid status sort email page_token count : Json) : OpOut :=
  if uuid.isNone then
    ⟨app, .error (.valueError "Missing required parameter \x27uuid\x27"), []⟩
  else
    let url := app.base_url ++ "/scheduled_events/" ++ pyStr uuid ++ "/invitees"
    let query_params := filterNotNone
      [("status", status), ("sort", sort), ("email", email),
       ("page_token", page_token), ("count", count)]
    doGET app t url query_params

/-- `CalendlyApp.get_event`. -/
def CalendlyApp.get_event (app : CalendlyApp) (t : Transport)
    (uuid : Json) : OpOut :=
  if uuid.isNone then
    ⟨app, .error (.valueError "Missing required parameter \x27uuid\x27"), []⟩
  else
    let url := app.base_url ++ "/scheduled_events/" ++ pyStr uuid
    let query_params : List (String × Json) := []
    doGET app t url query_params

/-- `CalendlyApp.get_event_invitee`. -/
def CalendlyApp.get_event_invitee (app : CalendlyApp) (t : Transport)
    (event_uuid invitee_uuid : Json) : OpOut :=
  if event_uuid.isNone then
    ⟨app, .error (.valueError "Missing required parameter \x27event_uuid\x27"), []⟩
  else if invitee_uuid.isNone then
    ⟨app, .error (.valueError "Missing required parameter \x27invitee_uuid\x27"), []⟩
  else
    let url := app.base_url ++ "/scheduled_events/" ++ pyStr event_uuid
      ++ "/invitees/" ++ pyStr invitee_uuid
    let query_params : List (String × Json) := []
    doGET app t url query_params

/-- `CalendlyApp.list_events`. -/
def CalendlyApp.list_events (app : CalendlyApp) (t : Transport)
    (user organization invitee_email status sort min_start_time
     max_start_time page_token count group : Json) : OpOut :=
  let url := app.base_url ++ "/scheduled_events"
  let query_params := filterNotNone
    [("user", user), ("organization", organization),
     ("invitee_email", invitee_email), ("status", status), ("sort", sort),
     ("min_start_time", min_start_time), ("max_start_time", max_start_time),
     ("page_token", page_token), ("count", count), ("group", group)]
  doGET app t url query_params

/-- `CalendlyApp.get_event_type`. -/
def CalendlyApp.get_event_type (app : CalendlyApp) (t : Transport)
    (uuid : Json) : OpOut :=
  if uuid.isNone then
    ⟨app, .error (.valueError "Missing required parameter \x27uuid\x27"), []⟩
  else
    let url := app.base_url ++ "/event_types/" ++ pyStr uuid
    let query_params : List (String × Json) := []
    doGET app t url query_params

/-- `CalendlyApp.list_user_sevent_types`. -/
def CalendlyApp.list_user_sevent_types (app : CalendlyApp) (t : Transport)
    (active organization user user_availability_schedule sort admin_managed
     page_token count : Json) : OpOut :=
  let url := app.base_url ++ "/event_types"
  let query_params := filterNotNone
    [("active", active), ("organization", organization), ("user", user),
     ("user_availability_schedule", user_availability_schedule),
     ("sort", sort), ("admin_managed", admin_managed),
     ("page_token", page_token), ("count", count)]
  doGET app t url query_params

/-- `CalendlyApp.get_user`. -/
def CalendlyApp.get_user (app : CalendlyApp) (t : Transport)
    (uuid : Json) : OpOut :=
  if uuid.isNone then
    ⟨app, .error (.valueError "Missing required parameter \x27uuid\x27"), []⟩
  else
    let url := app.base_url ++ "/users/" ++ pyStr uuid
    let query_params : List (String × Json) := []
    doGET app t url query_params

/-- `CalendlyApp.get_current_user`. -/
def CalendlyApp.get_current_user (app : CalendlyApp) (t : Transport) : OpOut :=
  let url := app.base_url ++ "/users/me"
  let query_params : List (String × Json) := []
  doGET app t url query_params

/-- `CalendlyApp.list_organization_invitations`. -/
def CalendlyApp.list_organization_invitations (app : CalendlyApp)
    (t : Transport) (uuid count page_token sort email status : Json) : OpOut :=
  if uuid.isNone then
    ⟨app, .error (.valueError "Missing required parameter \x27uuid\x27"), []⟩
  else
    let url := app.base_url ++ "/organizations/" ++ pyStr uuid ++ "/invitations"
    let query_params := filterNotNone
      [("count", count), ("page_token", page_token), ("sort", sort),
       ("email", email), ("status", status)]
    doGET app t url query_params

/-- `CalendlyApp.invite_user_to_organization`. -/
def CalendlyApp.invite_user_to_organization (app : CalendlyApp)
    (t : Transport) (uuid email : Json) : OpOut :=
  if uuid.isNone then
    ⟨app, .error (.valueError "Missing required parameter \x27uuid\x27"), []⟩
  else
    let request_body := filterNotNone [("email", email)]
    let url := app.base_url ++ "/organizations/" ++ pyStr uuid ++ "/invitations"
    let query_params : List (String × Json) := []
    doPOST app t url request_body query_params

/-- `CalendlyApp.get_organization_invitation`. -/
def CalendlyApp.get_organization_invitation (app : CalendlyApp)
    (t : Transport) (org_uuid uuid : Json) : OpOut :=
  if org_uuid.isNone then
    ⟨app, .error (.valueError "Missing required parameter \x27org_uuid\x27"), []⟩
  else if uuid.isNone then
    ⟨app, .error (.valueError "Missing required parameter \x27uuid\x27"), []⟩
  else
    let url := app.base_url ++ "/organizations/" ++ pyStr org_uuid
      ++ "/invitations/" ++ pyStr uuid
    let query_params : List (String × Json) := []
    doGET app t url query_params

/-- `CalendlyApp.revoke_user_sorganization_invitation`. -/
def CalendlyApp.revoke_user_sorganization_invitation (app : CalendlyApp)
    (t : Transport) (org_uuid uuid : Json) : OpOut :=
  if org_uuid.isNone then
    ⟨app, .error (.valueError "Missing required parameter \x27org_uuid\x27"), []⟩
  else if uuid.isNone then
    ⟨app, .error (.valueError "Missing required parameter \x27uuid\x27"), []⟩
  else
    let url := app.base_url ++ "/organizations/" ++ pyStr org_uuid
      ++ "/invitations/" ++ pyStr uuid
    let query_params : List (String × Json) := []
    doDELETE app t url query_params

/-- `CalendlyApp.get_organization_membership`. -/
def CalendlyApp.get_organization_membership (app : CalendlyApp)
    (t : Transport) (uuid : Json) : OpOut :=
  if uuid.isNone then
    ⟨app, .error (.valueError "Missing required parameter \x27uuid\x27"), []⟩
  else
    let url := app.base_url ++ "/organization_memberships/" ++ pyStr uuid
    let query_params : List (String × Json) := []
    doGET app t url query_params

/-- `CalendlyApp.remove_user_from_organization`. -/
def CalendlyApp.remove_user_from_organization (app : CalendlyApp)
    (t : Transport) (uuid : Json) : OpOut :=
  if uuid.isNone then
    ⟨app, .error (.valueError "Missing required parameter \x27uuid\x27"), []⟩
  else
    let url := app.base_url ++ "/organization_memberships/" ++ pyStr uuid
    let query_params : List (String × Json) := []
    doDELETE app t url query_params

/-- `CalendlyApp.list_organization_memberships`. -/
def CalendlyApp.list_organization_memberships (app : CalendlyApp)
    (t : Transport) (page_token count email organization user : Json) : OpOut :=
  let url := app.base_url ++ "/organization_memberships"
  let query_params := filterNotNone
    [("page_token", page_token), ("count", count), ("email", email),
     ("organization", organization), ("user", user)]
  doGET app t url query_params

/-- `CalendlyApp.get_webhook_subscription`. -/
def CalendlyApp.get_webhook_subscription (app : CalendlyApp) (t : Transport)
    (webhook_uuid : Json) : OpOut :=
  if webhook_uuid.isNone then
    ⟨app, .error (.valueError "Missing required parameter \x27webhook_uuid\x27"), []⟩
  else
    let url := app.base_url ++ "/webhook_subscriptions/" ++ pyStr webhook_uuid
    let query_params : List (String × Json) := []
    doGET app t url query_params

/-- `CalendlyApp.delete_webhook_subscription`. -/
def CalendlyApp.delete_webhook_subscription (app : CalendlyApp)
    (t : Transport) (webhook_uuid : Json) : OpOut :=
  if webhook_uuid.isNone then
    ⟨app, .error (.valueError "Missing required parameter \x27webhook_uuid\x27"), []⟩
  else
    let url := app.base_url ++ "/webhook_subscriptions/" ++ pyStr webhook_uuid
    let query_params : List (String × Json) := []
    doDELETE app t url query_params

/-- `CalendlyApp.list_webhook_subscriptions`. -/
def CalendlyApp.list_webhook_subscriptions (app : CalendlyApp)
    (t : Transport) (organization user page_token count sort scope : Json) :
    OpOut :=
  let url := app.base_url ++ "/webhook_subscriptions"
  let query_params := filterNotNone
    [("organization", organization), ("user", user),
     ("page_token", page_token), ("count", count), ("sort", sort),
     ("scope", scope)]
  doGET app t url query_params

/-- `CalendlyApp.create_webhook_subscription`.  (The source's local `url`
shadows the `url` body field, mirrored by the `let`.) -/
def CalendlyApp.create_webhook_subscription (app : CalendlyApp)
    (t : Transport) (events group organization scope signing_key url user :
    Json) : OpOut :=
  let request_body := filterNotNone
    [("events", events), ("group", group), ("organization", organization),
     ("scope", scope), ("signing_key", signing_key), ("url", url),
     ("user", user)]
  let url := app.base_url ++ "/webhook_subscriptions"
  let query_params : List (String × Json) := []
  doPOST app t url request_body query_params

/-- `CalendlyApp.create_single_use_scheduling_link`. -/
def CalendlyApp.create_single_use_scheduling_link (app : CalendlyApp)
    (t : Transport) (max_event_count owner owner_type : Json) : OpOut :=
  let request_body := filterNotNone
    [("max_event_count", max_event_count), ("owner", owner),
     ("owner_type", owner_type)]
  let url := app.base_url ++ "/scheduling_links"
  let query_params : List (String × Json) := []
  doPOST app t url request_body query_params

/-- `CalendlyApp.delete_invitee_data`. -/
def CalendlyApp.delete_invitee_data (app : CalendlyApp) (t : Transport)
    (emails : Json) : OpOut :=
  let request_body := filterNotNone [("emails", emails)]
  let url := app.base_url ++ "/data_compliance/deletion/invitees"
  let query_params : List (String × Json) := []
  doPOST app t url request_body query_params

/-- `CalendlyApp.delete_scheduled_event_data`. -/
def CalendlyApp.delete_scheduled_event_data (app : CalendlyApp)
    (t : Transport) (end_time start_time : Json) : OpOut :=
  let request_body := filterNotNone
    [("end_time", end_time), ("start_time", start_time)]
  let url := app.base_url ++ "/data_compliance/deletion/events"
  let query_params : List (String × Json) := []
  doPOST app t url request_body query_params

/-- `CalendlyApp.get_invitee_no_show`. -/
def CalendlyApp.get_invitee_no_show (app : CalendlyApp) (t : Transport)
    (uuid : Json) : OpOut :=
  if uuid.isNone then
    ⟨app, .error (.valueError "Missing required parameter \x27uuid\x27"), []⟩
  else
    let url := app.base_url ++ "/invitee_no_shows/" ++ pyStr uuid
    let query_params : List (String × Json) := []
    doGET app t url query_params

/-- `CalendlyApp.delete_invitee_no_show`. -/
def CalendlyApp.delete_invitee_no_show (app : CalendlyApp) (t : Transport)
    (uuid : Json) : OpOut :=
  if uuid.isNone then
    ⟨app, .error (.valueError "Missing required parameter \x27uuid\x27"), []⟩
  else
    let url := app.base_url ++ "/invitee_no_shows/" ++ pyStr uuid
    let query_params : List (String × Json) := []
    doDELETE app t url query_params

/-- `CalendlyApp.create_invitee_no_show`. -/
def CalendlyApp.create_invitee_no_show (app : CalendlyApp) (t : Transport)
    (invitee : Json) : OpOut :=
  let request_body := filterNotNone [("invitee", invitee)]
  let url := app.base_url ++ "/invitee_no_shows"
  let query_params : List (String × Json) := []
  doPOST app t url request_body query_params

/-- `CalendlyApp.get_group`. -/
def CalendlyApp.get_group (app : CalendlyApp) (t : Transport)
    (uuid : Json) : OpOut :=
  if uuid.isNone then
    ⟨app, .error (.valueError "Missing required parameter \x27uuid\x27"), []⟩
  else
    let url := app.base_url ++ "/groups/" ++ pyStr uuid
    let query_params : List (String × Json) := []
    doGET app t url query_params

/-- `CalendlyApp.list_groups`. -/
def CalendlyApp.list_groups (app : CalendlyApp) (t : Transport)
    (organization page_token count : Json) : OpOut :=
  let url := app.base_url ++ "/groups"
  let query_params := filterNotNone
    [("organization", organization), ("page_token", page_token),
     ("count", count)]
  doGET app t url query_params

/-- `CalendlyApp.get_group_relationship`. -/
def CalendlyApp.get_group_relationship (app : CalendlyApp) (t : Transport)
    (uuid : Json) : OpOut :=
  if uuid.isNone then
    ⟨app, .error (.valueError "Missing required parameter \x27uuid\x27"), []⟩
  else
    let url := app.base_url ++ "/group_relationships/" ++ pyStr uuid
    let query_params : List (String × Json) := []
    doGET app t url query_params

/-- `CalendlyApp.list_group_relationships`. -/
def CalendlyApp.list_group_relationships (app : CalendlyApp) (t : Transport)
    (count page_token organization owner group : Json) : OpOut :=
  let url := app.base_url ++ "/group_relationships"
  let query_params := filterNotNone
    [("count", count), ("page_token", page_token),
     ("organization", organization), ("owner", owner), ("group", group)]
  doGET app t url query_params

/-- `CalendlyApp.get_routing_form`. -/
def CalendlyApp.get_routing_form (app : CalendlyApp) (t : Transport)
    (uuid : Json) : OpOut :=
  if uuid.isNone then
    ⟨app, .error (.valueError "Missing required parameter \x27uuid\x27"), []⟩
  else
    let url := app.base_url ++ "/routing_forms/" ++ pyStr uuid
    let query_params : List (String × Json) := []
    doGET app t url query_params

/-- `CalendlyApp.list_routing_forms`. -/
def CalendlyApp.list_routing_forms (app : CalendlyApp) (t : Transport)
    (organization count page_token sort : Json) : OpOut :=
  let url := app.base_url ++ "/routing_forms"
  let query_params := filterNotNone
    [("organization", organization), ("count", count),
     ("page_token", page_token), ("sort", sort)]
  doGET app t url query_params

/-- `CalendlyApp.get_routing_form_submission`. -/
def CalendlyApp.get_routing_form_submission (app : CalendlyApp)
    (t : Transport) (uuid : Json) : OpOut :=
  if uuid.isNone then
    ⟨app, .error (.valueError "Missing required parameter \x27uuid\x27"), []⟩
  else
    let url := app.base_url ++ "/routing_form_submissions/" ++ pyStr uuid
    let query_params : List (String × Json) := []
    doGET app t url query_params

/-- `CalendlyApp.list_routing_form_submissions`. -/
def CalendlyApp.list_routing_form_submissions (app : CalendlyApp)
    (t : Transport) (form count page_token sort : Json) : OpOut :=
  let url := app.base_url ++ "/routing_form_submissions"
  let query_params := filterNotNone
    [("form", form), ("count", count), ("page_token", page_token),
     ("sort", sort)]
  doGET app t url query_params

/-- `CalendlyApp.list_event_type_available_times`. -/
def CalendlyApp.list_event_type_available_times (app : CalendlyApp)
    (t : Transport) (event_type start_time end_time : Json) : OpOut :=
  let url := app.base_url ++ "/event_type_available_times"
  let query_params := filterNotNone
    [("event_type", event_type), ("start_time", start_time),
     ("end_time", end_time)]
  doGET app t url query_params

/-- `CalendlyApp.list_activity_log_entries` (the Python parameter named
`namespace` is a Lean keyword and is bound here as `nspace`; the emitted
query key is the string "namespace" exactly as in the source). -/
def CalendlyApp.list_activity_log_entries (app : CalendlyApp)
    (t : Transport) (organization search_term actor sort min_occurred_at
     max_occurred_at page_token count nspace action : Json) : OpOut :=
  let url := app.base_url ++ "/activity_log_entries"
  let query_params := filterNotNone
    [("organization", organization), ("search_term", search_term),
     ("actor", actor), ("sort", sort), ("min_occurred_at", min_occurred_at),
     ("max_occurred_at", max_occurred_at), ("page_token", page_token),
     ("count", count), ("namespace", nspace), ("action", action)]
  doGET app t url query_params

/-- `CalendlyApp.create_share`. -/
def CalendlyApp.create_share (app : CalendlyApp) (t : Transport)
    (availability_rule duration end_date event_type hide_location
     location_configurations max_booking_time name period_type start_date :
     Json) : OpOut :=
  let request_body := filterNotNone
    [("availability_rule", availability_rule), ("duration", duration),
     ("end_date", end_date), ("event_type", event_type),
     ("hide_location", hide_location),
     ("location_configurations", location_configurations),
     ("max_booking_time", max_booking_time), ("name", name),
     ("period_type", period_type), ("start_date", start_date)]
  let url := app.base_url ++ "/shares"
  let query_params : List (String × Json) := []
  doPOST app t url request_body query_params

/-- `CalendlyApp.list_user_busy_times`. -/
def CalendlyApp.list_user_busy_times (app : CalendlyApp) (t : Transport)
    (user start_time end_time : Json) : OpOut :=
  let url := app.base_url ++ "/user_busy_times"
  let query_params := filterNotNone
    [("user", user), ("start_time", start_time), ("end_time", end_time)]
  doGET app t url query_params

/-- `CalendlyApp.get_user_availability_schedule`. -/
def CalendlyApp.get_user_availability_schedule (app : CalendlyApp)
    (t : Transport) (uuid : Json) : OpOut :=
  if uuid.isNone then
    ⟨app, .error (.valueError "Missing required parameter \x27uuid\x27"), []⟩
  else
    let url := app.base_url ++ "/user_availability_schedules/" ++ pyStr uuid
    let query_params : List (String × Json) := []
    doGET app t url query_params

/-- `CalendlyApp.list_user_availability_schedules`. -/
def CalendlyApp.list_user_availability_schedules (app : CalendlyApp)
    (t : Transport) (user : Json) : OpOut :=
  let url := app.base_url ++ "/user_availability_schedules"
  let query_params := filterNotNone [("user", user)]
  doGET app t url query_params

/-- `CalendlyApp.list_event_type_hosts`. -/
def CalendlyApp.list_event_type_hosts (app : CalendlyApp) (t : Transport)
    (event_type count page_token : Json) : OpOut :=
  let url := app.base_url ++ "/event_type_memberships"
  let query_params := filterNotNone
    [("event_type", event_type), ("count", count),
     ("page_token", page_token)]
  doGET app t url query_params

/-- `CalendlyApp.create_one_off_event_type`. -/
def CalendlyApp.create_one_off_event_type (app : CalendlyApp)
    (t : Transport) (co_hosts date_setting duration host location name
     timezone : Json) : OpOut :=
  let request_body := filterNotNone
    [("co_hosts", co_hosts), ("date_setting", date_setting),
     ("duration", duration), ("host", host), ("location", location),
     ("name", name), ("timezone", timezone)]
  let url := app.base_url ++ "/one_off_event_types"
  let query_params : List (String × Json) := []
  doPOST app t url request_body query_params

/-- `CalendlyApp.get_sample_webhook_data`. -/
def CalendlyApp.get_sample_webhook_data (app : CalendlyApp) (t : Transport)
    (event organization user scope : Json) : OpOut :=
  let url := app.base_url ++ "/sample_webhook_data"
  let query_params := filterNotNone
    [("event", event), ("organization", organization), ("user", user),
     ("scope", scope)]
  doGET app t url query_params

/-- `None is None` evaluates to `True`. -/
theorem Json.isNone_null : Json.null.isNone = true := rfl

/-- Claim C1: every operation with required path parameters, invoked with a
required path parameter set to `None`, fails with
`ValueError("Missing required parameter '<name>'")` naming the missing
parameter and hands no request to the transport (the empty `calls` trace:
the failure occurs before the transport is invoked).  For two-parameter
operations the second conjunct assumes the first parameter present, since
the guards run in order. -/
theorem c1_required_param_guard :
    (∀ app (t : Transport) status sort email page_token count,
      CalendlyApp.list_event_invitees app t Json.null status sort email
          page_token count
        = ⟨app, .error (.valueError "Missing required parameter \x27uuid\x27"), []⟩) ∧
    (∀ app (t : Transport),
      CalendlyApp.get_event app t Json.null
        = ⟨app, .error (.valueError "Missing required parameter \x27uuid\x27"), []⟩) ∧
    (∀ app (t : Transport) invitee_uuid,
      CalendlyApp.get_event_invitee app t Json.null invitee_uuid
        = ⟨app, .error (.valueError "Missing required parameter \x27event_uuid\x27"), []⟩) ∧
    (∀ app (t : Transport) event_uuid, event_uuid.isNone = false →
      CalendlyApp.get_event_invitee app t event_uuid Json.null
        = ⟨app, .error (.valueError "Missing required parameter \x27invitee_uuid\x27"), []⟩) ∧
    (∀ app (t : Transport),
      CalendlyApp.get_event_type app t Json.null
        = ⟨app, .error (.valueError "Missing required parameter \x27uuid\x27"), []⟩) ∧
    (∀ app (t : Transport),
      CalendlyApp.get_user app t Json.null
        = ⟨app, .error (.valueError "Missing required parameter \x27uuid\x27"), []⟩) ∧
    (∀ app (t : Transport) count page_token sort email status,
      CalendlyApp.list_organization_invitations app t Json.null count
          page_token sort email status
        = ⟨app, .error (.valueError "Missing required parameter \x27uuid\x27"), []⟩) ∧
    (∀ app (t : Transport) email,
      CalendlyApp.invite_user_to_organization app t Json.null email
        = ⟨app, .error (.valueError "Missing required parameter \x27uuid\x27"), []⟩) ∧
    (∀ app (t : Transport) uuid,
      CalendlyApp.get_organization_invitation app t Json.null uuid
        = ⟨app, .error (.valueError "Missing required parameter \x27org_uuid\x27"), []⟩) ∧
    (∀ app (t : Transport) org_uuid, org_uuid.isNone = false →
      CalendlyApp.get_organization_invitation app t org_uuid Json.null
        = ⟨app, .error (.valueError "Missing required parameter \x27uuid\x27"), []⟩) ∧
    (∀ app (t : Transport) uuid,
      CalendlyApp.revoke_user_sorganization_invitation app t Json.null uuid
        = ⟨app, .error (.valueError "Missing required parameter \x27org_uuid\x27"), []⟩) ∧
    (∀ app (t : Transport) org_uuid, org_uuid.isNone = false →
      CalendlyApp.revoke_user_sorganization_invitation app t org_uuid Json.null
        = ⟨app, .error (.valueError "Missing required parameter \x27uuid\x27"), []⟩) ∧
    (∀ app (t : Transport),
      CalendlyApp.get_organization_membership app t Json.null
        = ⟨app, .error (.valueError "Missing required parameter \x27uuid\x27"), []⟩) ∧
    (∀ app (t : Transport),
      CalendlyApp.remove_user_from_organization app t Json.null
        = ⟨app, .error (.valueError "Missing required parameter \x27uuid\x27"), []⟩) ∧
    (∀ app (t : Transport),
      CalendlyApp.get_webhook_subscription app t Json.null
        = ⟨app, .error (.valueError "Missing required parameter \x27webhook_uuid\x27"), []⟩) ∧
    (∀ app (t : Transport),
      CalendlyApp.delete_webhook_subscription app t Json.null
        = ⟨app, .error (.valueError "Missing required parameter \x27webhook_uuid\x27"), []⟩) ∧
    (∀ app (t : Transport),
      CalendlyApp.get_invitee_no_show app t Json.null
        = ⟨app, .error (.valueError "Missing required parameter \x27uuid\x27"), []⟩) ∧
    (∀ app (t : Transport),
      CalendlyApp.delete_invitee_no_show app t Json.null
        = ⟨app, .error (.valueError "Missing required parameter \x27uuid\x27"), []⟩) ∧
    (∀ app (t : Transport),
      CalendlyApp.get_group app t Json.null
        = ⟨app, .error (.valueError "Missing required parameter \x27uuid\x27"), []⟩) ∧
    (∀ app (t : Transport),
      CalendlyApp.get_group_relationship app t Json.null
        = ⟨app, .error (.valueError "Missing required parameter \x27uuid\x27"), []⟩) ∧
    (∀ app (t : Transport),
      CalendlyApp.get_routing_form app t Json.null
        = ⟨app, .error (.valueError "Missing required parameter \x27uuid\x27"), []⟩) ∧
    (∀ app (t : Transport),
      CalendlyApp.get_routing_form_submission app t Json.null
        = ⟨app, .error (.valueError "Missing required parameter \x27uuid\x27"), []⟩) ∧
    (∀ app (t : Transport),
      CalendlyApp.get_user_availability_schedule app t Json.null
        = ⟨app, .error (.valueError "Missing required parameter \x27uuid\x27"), []⟩) := by
  refine ⟨?_, ?_, ?_, ?_, ?_, ?_, ?_, ?_, ?_, ?_, ?_, ?_, ?_, ?_, ?_, ?_,
    ?_, ?_, ?_, ?_, ?_, ?_, ?_⟩ <;> intros <;>
    simp_all [CalendlyApp.list_event_invitees, CalendlyApp.get_event,
      CalendlyApp.get_event_invitee, CalendlyApp.get_event_type,
      CalendlyApp.get_user, CalendlyApp.list_organization_invitations,
      CalendlyApp.invite_user_to_organization,
      CalendlyApp.get_organization_invitation,
      CalendlyApp.revoke_user_sorganization_invitation,
      CalendlyApp.get_organization_membership,
      CalendlyApp.remove_user_from_organization,
      CalendlyApp.get_webhook_subscription,
      CalendlyApp.delete_webhook_subscription,
      CalendlyApp.get_invitee_no_show, CalendlyApp.delete_invitee_no_show,
      CalendlyApp.get_group, CalendlyApp.get_group_relationship,
      CalendlyApp.get_routing_form, CalendlyApp.get_routing_form_submission,
      CalendlyApp.get_user_availability_schedule, Json.isNone_null]

/-- Witness for C1: `get_event_invitee` with a present event identifier and
a `None` invitee identifier fails naming `invitee_uuid` and issues no
request. -/
theorem c1_required_param_guard_witness :
    (Json.str "e").isNone = false ∧
    CalendlyApp.get_event_invitee (CalendlyApp.init Option.none)
        (fun _ => ⟨200, Option.none⟩) (Json.str "e") Json.null
      = ⟨CalendlyApp.init Option.none,
         .error (.valueError "Missing required parameter \x27invitee_uuid\x27"),
         []⟩ :=
  ⟨rfl, c1_required_param_guard.2.2.2.1 (CalendlyApp.init Option.none)
    (fun _ => ⟨200, Option.none⟩) (Json.str "e") rfl⟩

/-- Claim C2: a `None` optional parameter never appears in the outgoing
query or body mapping, while any present value (including `False`, `0`,
and the empty string) appears; membership in the built mapping is exactly
membership among the non-`None` entries, and
`list_events(status="active", count=20)` sends exactly
`status=active, count=20`. -/
theorem c2_optional_param_filtering :
    (∀ (entries : List (String × Json)) (k : String) (v : Json),
      ((k, v) ∈ filterNotNone entries ↔ (k, v) ∈ entries ∧ v.isNone = false)) ∧
    (∀ app (t : Transport) user organization invitee_email status sort
        min_start_time max_start_time page_token count group,
      (CalendlyApp.list_events app t user organization invitee_email status
          sort min_start_time max_start_time page_token count group).calls
        = [⟨.GET, app.base_url ++ "/scheduled_events",
            filterNotNone
              [("user", user), ("organization", organization),
               ("invitee_email", invitee_email), ("status", status),
               ("sort", sort), ("min_start_time", min_start_time),
               ("max_start_time", max_start_time), ("page_token", page_token),
               ("count", count), ("group", group)], Option.none⟩]) ∧
    (∀ (t : Transport),
      ((CalendlyApp.init Option.none).list_events t Json.null Json.null
          Json.null (Json.str "active") Json.null Json.null Json.null
          Json.null (Json.num 20) Json.null).calls
        = [⟨.GET, "https://api.calendly.com/scheduled_events",
            [("status", Json.str "active"), ("count", Json.num 20)],
            Option.none⟩]) ∧
    (∀ (t : Transport),
      ((CalendlyApp.init Option.none).list_events t Json.null Json.null
          Json.null (Json.str "") Json.null Json.null Json.null Json.null
          (Json.num 0) Json.null).calls
        = [⟨.GET, "https://api.calendly.com/scheduled_events",
            [("status", Json.str ""), ("count", Json.num 0)], Option.none⟩]) ∧
    (∀ app (t : Transport) events group organization scope signing_key url
        user,
      (CalendlyApp.create_webhook_subscription app t events group
          organization scope signing_key url user).calls
        = [⟨.POST, app.base_url ++ "/webhook_subscriptions", [],
            some (filterNotNone
              [("events", events), ("group", group),
               ("organization", organization), ("scope", scope),
               ("signing_key", signing_key), ("url", url),
               ("user", user)])⟩]) ∧
    (∀ (t : Transport),
      ((CalendlyApp.init Option.none).create_webhook_subscription t Json.null
          Json.null Json.null Json.null Json.null (Json.str "")
          (Json.bool false)).calls
        = [⟨.POST, "https://api.calendly.com/webhook_subscriptions", [],
            some [("url", Json.str ""), ("user", Json.bool false)]⟩]) := by
  refine ⟨?_, ?_, ?_, ?_, ?_, ?_⟩
  · intro entries k v
    simp [filterNotNone, List.mem_filter]
  · intros; rfl
  · intros; rfl
  · intros; rfl
  · intros; rfl
  · intros; rfl

/-- Claim C3: for every operation, when the transport answers status 200
with a body decoding to the JSON document `d`, the operation returns `d`
unmodified (identity pass-through on the decoded JSON). -/
theorem c3_response_passthrough :
    (∀ app (t : Transport) (d uuid s1 s2 s3 s4 s5 : Json),
      uuid.isNone = false → (∀ r, t r = ⟨200, some d⟩) →
      (CalendlyApp.list_event_invitees app t uuid s1 s2 s3 s4 s5).ret = .ok d) ∧
    (∀ app (t : Transport) (d uuid : Json),
      uuid.isNone = false → (∀ r, t r = ⟨200, some d⟩) →
      (CalendlyApp.get_event app t uuid).ret = .ok d) ∧
    (∀ app (t : Transport) (d event_uuid invitee_uuid : Json),
      event_uuid.isNone = false → invitee_uuid.isNone = false →
      (∀ r, t r = ⟨200, some d⟩) →
      (CalendlyApp.get_event_invitee app t event_uuid invitee_uuid).ret = .ok d) ∧
    (∀ app (t : Transport) (d s1 s2 s3 s4 s5 s6 s7 s8 s9 s10 : Json),
      (∀ r, t r = ⟨200, some d⟩) →
      (CalendlyApp.list_events app t s1 s2 s3 s4 s5 s6 s7 s8 s9 s10).ret = .ok d) ∧
    (∀ app (t : Transport) (d uuid : Json),
      uuid.isNone = false → (∀ r, t r = ⟨200, some d⟩) →
      (CalendlyApp.get_event_type app t uuid).ret = .ok d) ∧
    (∀ app (t : Transport) (d s1 s2 s3 s4 s5 s6 s7 s8 : Json),
      (∀ r, t r = ⟨200, some d⟩) →
      (CalendlyApp.list_user_sevent_types app t s1 s2 s3 s4 s5 s6 s7 s8).ret = .ok d) ∧
    (∀ app (t : Transport) (d uuid : Json),
      uuid.isNone = false → (∀ r, t r = ⟨200, some d⟩) →
      (CalendlyApp.get_user app t uuid).ret = .ok d) ∧
    (∀ app (t : Transport) (d : Json),
      (∀ r, t r = ⟨200, some d⟩) →
      (CalendlyApp.get_current_user app t).ret = .ok d) ∧
    (∀ app (t : Transport) (d uuid s1 s2 s3 s4 s5 : Json),
      uuid.isNone = false → (∀ r, t r = ⟨200, some d⟩) →
      (CalendlyApp.list_organization_invitations app t uuid s1 s2 s3 s4 s5).ret = .ok d) ∧
    (∀ app (t : Transport) (d uuid email : Json),
      uuid.isNone = false → (∀ r, t r = ⟨200, some d⟩) →
      (CalendlyApp.invite_user_to_organization app t uuid email).ret = .ok d) ∧
    (∀ app (t : Transport) (d org_uuid uuid : Json),
      org_uuid.isNone = false → uuid.isNone = false →
      (∀ r, t r = ⟨200, some d⟩) →
      (CalendlyApp.get_organization_invitation app t org_uuid uuid).ret = .ok d) ∧
    (∀ app (t : Transport) (d org_uuid uuid : Json),
      org_uuid.isNone = false → uuid.isNone = false →
      (∀ r, t r = ⟨200, some d⟩) →
      (CalendlyApp.revoke_user_sorganization_invitation app t org_uuid uuid).ret = .ok d) ∧
    (∀ app (t : Transport) (d uuid : Json),
      uuid.isNone = false → (∀ r, t r = ⟨200, some d⟩) →
      (CalendlyApp.get_organization_membership app t uuid).ret = .ok d) ∧
    (∀ app (t : Transport) (d uuid : Json),
      uuid.isNone = false → (∀ r, t r = ⟨200, some d⟩) →
      (CalendlyApp.remove_user_from_organization app t uuid).ret = .ok d) ∧
    (∀ app (t : Transport) (d s1 s2 s3 s4 s5 : Json),
      (∀ r, t r = ⟨200, some d⟩) →
      (CalendlyApp.list_organization_memberships app t s1 s2 s3 s4 s5).ret = .ok d) ∧
    (∀ app (t : Transport) (d webhook_uuid : Json),
      webhook_uuid.isNone = false → (∀ r, t r = ⟨200, some d⟩) →
      (CalendlyApp.get_webhook_subscription app t webhook_uuid).ret = .ok d) ∧
    (∀ app (t : Transport) (d webhook_uuid : Json),
      webhook_uuid.isNone = false → (∀ r, t r = ⟨200, some d⟩) →
      (CalendlyApp.delete_webhook_subscription app t webhook_uuid).ret = .ok d) ∧
    (∀ app (t : Transport) (d s1 s2 s3 s4 s5 s6 : Json),
      (∀ r, t r = ⟨200, some d⟩) →
      (CalendlyApp.list_webhook_subscriptions app t s1 s2 s3 s4 s5 s6).ret = .ok d) ∧
    (∀ app (t : Transport) (d s1 s2 s3 s4 s5 s6 s7 : Json),
      (∀ r, t r = ⟨200, some d⟩) →
      (CalendlyApp.create_webhook_subscription app t s1 s2 s3 s4 s5 s6 s7).ret = .ok d) ∧
    (∀ app (t : Transport) (d s1 s2 s3 : Json),
      (∀ r, t r = ⟨200, some d⟩) →
      (CalendlyApp.create_single_use_scheduling_link app t s1 s2 s3).ret = .ok d) ∧
    (∀ app (t : Transport) (d s1 : Json),
      (∀ r, t r = ⟨200, some d⟩) →
      (CalendlyApp.delete_invitee_data app t s1).ret = .ok d) ∧
    (∀ app (t : Transport) (d s1 s2 : Json),
      (∀ r, t r = ⟨200, some d⟩) →
      (CalendlyApp.delete_scheduled_event_data app t s1 s2).ret = .ok d) ∧
    (∀ app (t : Transport) (d uuid : Json),
      uuid.isNone = false → (∀ r, t r = ⟨200, some d⟩) →
      (CalendlyApp.get_invitee_no_show app t uuid).ret = .ok d) ∧
    (∀ app (t : Transport) (d uuid : Json),
      uuid.isNone = false → (∀ r, t r = ⟨200, some d⟩) →
      (CalendlyApp.delete_invitee_no_show app t uuid).ret = .ok d) ∧
    (∀ app (t : Transport) (d s1 : Json),
      (∀ r, t r = ⟨200, some d⟩) →
      (CalendlyApp.create_invitee_no_show app t s1).ret = .ok d) ∧
    (∀ app (t : Transport) (d uuid : Json),
      uuid.isNone = false → (∀ r, t r = ⟨200, some d⟩) →
      (CalendlyApp.get_group app t uuid).ret = .ok d) ∧
    (∀ app (t : Transport) (d s1 s2 s3 : Json),
      (∀ r, t r = ⟨200, some d⟩) →
      (CalendlyApp.list_groups app t s1 s2 s3).ret = .ok d) ∧
    (∀ app (t : Transport) (d uuid : Json),
      uuid.isNone = false → (∀ r, t r = ⟨200, some d⟩) →
      (CalendlyApp.get_group_relationship app t uuid).ret = .ok d) ∧
    (∀ app (t : Transport) (d s1 s2 s3 s4 s5 : Json),
      (∀ r, t r = ⟨200, some d⟩) →
      (CalendlyApp.list_group_relationships app t s1 s2 s3 s4 s5).ret = .ok d) ∧
    (∀ app (t : Transport) (d uuid : Json),
      uuid.isNone = false → (∀ r, t r = ⟨200, some d⟩) →
      (CalendlyApp.get_routing_form app t uuid).ret = .ok d) ∧
    (∀ app (t : Transport) (d s1 s2 s3 s4 : Json),
      (∀ r, t r = ⟨200, some d⟩) →
      (CalendlyApp.list_routing_forms app t s1 s2 s3 s4).ret = .ok d) ∧
    (∀ app (t : Transport) (d uuid : Json),
      uuid.isNone = false → (∀ r, t r = ⟨200, some d⟩) →
      (CalendlyApp.get_routing_form_submission app t uuid).ret = .ok d) ∧
    (∀ app (t : Transport) (d s1 s2 s3 s4 : Json),
      (∀ r, t r = ⟨200, some d⟩) →
      (CalendlyApp.list_routing_form_submissions app t s1 s2 s3 s4).ret = .ok d) ∧
    (∀ app (t : Transport) (d s1 s2 s3 : Json),
      (∀ r, t r = ⟨200, some d⟩) →
      (CalendlyApp.list_event_type_available_times app t s1 s2 s3).ret = .ok d) ∧
    (∀ app (t : Transport) (d s1 s2 s3 s4 s5 s6 s7 s8 s9 s10 : Json),
      (∀ r, t r = ⟨200, some d⟩) →
      (CalendlyApp.list_activity_log_entries app t s1 s2 s3 s4 s5 s6 s7 s8 s9 s10).ret = .ok d) ∧
    (∀ app (t : Transport) (d s1 s2 s3 s4 s5 s6 s7 s8 s9 s10 : Json),
      (∀ r, t r = ⟨200, some d⟩) →
      (CalendlyApp.create_share app t s1 s2 s3 s4 s5 s6 s7 s8 s9 s10).ret = .ok d) ∧
    (∀ app (t : Transport) (d s1 s2 s3 : Json),
      (∀ r, t r = ⟨200, some d⟩) →
      (CalendlyApp.list_user_busy_times app t s1 s2 s3).ret = .ok d) ∧
    (∀ app (t : Transport) (d uuid : Json),
      uuid.isNone = false → (∀ r, t r = ⟨200, some d⟩) →
      (CalendlyApp.get_user_availability_schedule app t uuid).ret = .ok d) ∧
    (∀ app (t : Transport) (d s1 : Json),
      (∀ r, t r = ⟨200, some d⟩) →
      (CalendlyApp.list_user_availability_schedules app t s1).ret = .ok d) ∧
    (∀ app (t : Transport) (d s1 s2 s3 : Json),
      (∀ r, t r = ⟨200, some d⟩) →
      (CalendlyApp.list_event_type_hosts app t s1 s2 s3).ret = .ok d) ∧
    (∀ app (t : Transport) (d s1 s2 s3 s4 s5 s6 s7 : Json),
      (∀ r, t r = ⟨200, some d⟩) →
      (CalendlyApp.create_one_off_event_type app t s1 s2 s3 s4 s5 s6 s7).ret = .ok d) ∧
    (∀ app (t : Transport) (d s1 s2 s3 s4 : Json),
      (∀ r, t r = ⟨200, some d⟩) →
      (CalendlyApp.get_sample_webhook_data app t s1 s2 s3 s4).ret = .ok d) := by
  refine ⟨?_, ?_, ?_, ?_, ?_, ?_, ?_, ?_, ?_, ?_, ?_, ?_, ?_, ?_, ?_, ?_,
    ?_, ?_, ?_, ?_, ?_, ?_, ?_, ?_, ?_, ?_, ?_, ?_, ?_, ?_, ?_, ?_, ?_,
    ?_, ?_, ?_, ?_, ?_, ?_, ?_, ?_, ?_⟩ <;> intros <;>
    simp_all [CalendlyApp.list_event_invitees, CalendlyApp.get_event,
      CalendlyApp.get_event_invitee, CalendlyApp.list_events,
      CalendlyApp.get_event_type, CalendlyApp.list_user_sevent_types,
      CalendlyApp.get_user, CalendlyApp.get_current_user,
      CalendlyApp.list_organization_invitations,
      CalendlyApp.invite_user_to_organization,
      CalendlyApp.get_organization_invitation,
      CalendlyApp.revoke_user_sorganization_invitation,
      CalendlyApp.get_organization_membership,
      CalendlyApp.remove_user_from_organization,
      CalendlyApp.list_organization_memberships,
      CalendlyApp.get_webhook_subscription,
      CalendlyApp.delete_webhook_subscription,
      CalendlyApp.list_webhook_subscriptions,
      CalendlyApp.create_webhook_subscription,
      CalendlyApp.create_single_use_scheduling_link,
      CalendlyApp.delete_invitee_data,
      CalendlyApp.delete_scheduled_event_data,
      CalendlyApp.get_invitee_no_show, CalendlyApp.delete_invitee_no_show,
      CalendlyApp.create_invitee_no_show, CalendlyApp.get_group,
      CalendlyApp.list_groups, CalendlyApp.get_group_relationship,
      CalendlyApp.list_group_relationships, CalendlyApp.get_routing_form,
      CalendlyApp.list_routing_forms,
      CalendlyApp.get_routing_form_submission,
      CalendlyApp.list_routing_form_submissions,
      CalendlyApp.list_event_type_available_times,
      CalendlyApp.list_activity_log_entries, CalendlyApp.create_share,
      CalendlyApp.list_user_busy_times,
      CalendlyApp.get_user_availability_schedule,
      CalendlyApp.list_user_availability_schedules,
      CalendlyApp.list_event_type_hosts,
      CalendlyApp.create_one_off_event_type,
      CalendlyApp.get_sample_webhook_data,
      doGET, doPOST, doDELETE, handleResponse]

/-- Witness for C3: `get_event` against a transport that always answers
200 with the document `7` returns `7`. -/
theorem c3_response_passthrough_witness :
    (Json.str "u").isNone = false ∧
    (CalendlyApp.get_event (CalendlyApp.init Option.none)
        (fun _ => ⟨200, some (Json.num 7)⟩) (Json.str "u")).ret
      = .ok (Json.num 7) :=
  ⟨rfl, c3_response_passthrough.2.1 (CalendlyApp.init Option.none)
    (fun _ => ⟨200, some (Json.num 7)⟩) (Json.num 7) (Json.str "u") rfl
    (fun _ => rfl)⟩

/-- Claim C4: for every operation, when the transport answers a status
outside [200,299] with some body, the operation fails with an HTTP error
carrying exactly that status and body, returns no value, and still hands
exactly one request to the transport (no retry, no status-specific
classification). -/
theorem c4_http_error_propagation :
    (∀ app (t : Transport) (s : Nat) (b : Option Json)
        (uuid s1 s2 s3 s4 s5 : Json),
      uuid.isNone = false → ¬(200 ≤ s ∧ s ≤ 299) → (∀ r, t r = ⟨s, b⟩) →
      (CalendlyApp.list_event_invitees app t uuid s1 s2 s3 s4 s5).ret
          = .error (.httpError s b) ∧
        (CalendlyApp.list_event_invitees app t uuid s1 s2 s3 s4 s5).calls.length = 1) ∧
    (∀ app (t : Transport) (s : Nat) (b : Option Json) (uuid : Json),
      uuid.isNone = false → ¬(200 ≤ s ∧ s ≤ 299) → (∀ r, t r = ⟨s, b⟩) →
      (CalendlyApp.get_event app t uuid).ret = .error (.httpError s b) ∧
        (CalendlyApp.get_event app t uuid).calls.length = 1) ∧
    (∀ app (t : Transport) (s : Nat) (b : Option Json)
        (event_uuid invitee_uuid : Json),
      event_uuid.isNone = false → invitee_uuid.isNone = false →
      ¬(200 ≤ s ∧ s ≤ 299) → (∀ r, t r = ⟨s, b⟩) →
      (CalendlyApp.get_event_invitee app t event_uuid invitee_uuid).ret
          = .error (.httpError s b) ∧
        (CalendlyApp.get_event_invitee app t event_uuid invitee_uuid).calls.length = 1) ∧
    (∀ app (t : Transport) (s : Nat) (b : Option Json)
        (s1 s2 s3 s4 s5 s6 s7 s8 s9 s10 : Json),
      ¬(200 ≤ s ∧ s ≤ 299) → (∀ r, t r = ⟨s, b⟩) →
      (CalendlyApp.list_events app t s1 s2 s3 s4 s5 s6 s7 s8 s9 s10).ret
          = .error (.httpError s b) ∧
        (CalendlyApp.list_events app t s1 s2 s3 s4 s5 s6 s7 s8 s9 s10).calls.length = 1) ∧
    (∀ app (t : Transport) (s : Nat) (b : Option Json) (uuid : Json),
      uuid.isNone = false → ¬(200 ≤ s ∧ s ≤ 299) → (∀ r, t r = ⟨s, b⟩) →
      (CalendlyApp.get_event_type app t uuid).ret = .error (.httpError s b) ∧
        (CalendlyApp.get_event_type app t uuid).calls.length = 1) ∧
    (∀ app (t : Transport) (s : Nat) (b : Option Json)
        (s1 s2 s3 s4 s5 s6 s7 s8 : Json),
      ¬(200 ≤ s ∧ s ≤ 299) → (∀ r, t r = ⟨s, b⟩) →
      (CalendlyApp.list_user_sevent_types app t s1 s2 s3 s4 s5 s6 s7 s8).ret
          = .error (.httpError s b) ∧
        (CalendlyApp.list_user_sevent_types app t s1 s2 s3 s4 s5 s6 s7 s8).calls.length = 1) ∧
    (∀ app (t : Transport) (s : Nat) (b : Option Json) (uuid : Json),
      uuid.isNone = false → ¬(200 ≤ s ∧ s ≤ 299) → (∀ r, t r = ⟨s, b⟩) →
      (CalendlyApp.get_user app t uuid).ret = .error (.httpError s b) ∧
        (CalendlyApp.get_user app t uuid).calls.length = 1) ∧
    (∀ app (t : Transport) (s : Nat) (b : Option Json),
      ¬(200 ≤ s ∧ s ≤ 299) → (∀ r, t r = ⟨s, b⟩) →
      (CalendlyApp.get_current_user app t).ret = .error (.httpError s b) ∧
        (CalendlyApp.get_current_user app t).calls.length = 1) ∧
    (∀ app (t : Transport) (s : Nat) (b : Option Json)
        (uuid s1 s2 s3 s4 s5 : Json),
      uuid.isNone = false → ¬(200 ≤ s ∧ s ≤ 299) → (∀ r, t r = ⟨s, b⟩) →
      (CalendlyApp.list_organization_invitations app t uuid s1 s2 s3 s4 s5).ret
          = .error (.httpError s b) ∧
        (CalendlyApp.list_organization_invitations app t uuid s1 s2 s3 s4 s5).calls.length = 1) ∧
    (∀ app (t : Transport) (s : Nat) (b : Option Json) (uuid email : Json),
      uuid.isNone = false → ¬(200 ≤ s ∧ s ≤ 299) → (∀ r, t r = ⟨s, b⟩) →
      (CalendlyApp.invite_user_to_organization app t uuid email).ret
          = .error (.httpError s b) ∧
        (CalendlyApp.invite_user_to_organization app t uuid email).calls.length = 1) ∧
    (∀ app (t : Transport) (s : Nat) (b : Option Json) (org_uuid uuid : Json),
      org_uuid.isNone = false → uuid.isNone = false →
      ¬(200 ≤ s ∧ s ≤ 299) → (∀ r, t r = ⟨s, b⟩) →
      (CalendlyApp.get_organization_invitation app t org_uuid uuid).ret
          = .error (.httpError s b) ∧
        (CalendlyApp.get_organization_invitation app t org_uuid uuid).calls.length = 1) ∧
    (∀ app (t : Transport) (s : Nat) (b : Option Json) (org_uuid uuid : Json),
      org_uuid.isNone = false → uuid.isNone = false →
      ¬(200 ≤ s ∧ s ≤ 299) → (∀ r, t r = ⟨s, b⟩) →
      (CalendlyApp.revoke_user_sorganization_invitation app t org_uuid uuid).ret
          = .error (.httpError s b) ∧
        (CalendlyApp.revoke_user_sorganization_invitation app t org_uuid uuid).calls.length = 1) ∧
    (∀ app (t : Transport) (s : Nat) (b : Option Json) (uuid : Json),
      uuid.isNone = false → ¬(200 ≤ s ∧ s ≤ 299) → (∀ r, t r = ⟨s, b⟩) →
      (CalendlyApp.get_organization_membership app t uuid).ret
          = .error (.httpError s b) ∧
        (CalendlyApp.get_organization_membership app t uuid).calls.length = 1) ∧
    (∀ app (t : Transport) (s : Nat) (b : Option Json) (uuid : Json),
      uuid.isNone = false → ¬(200 ≤ s ∧ s ≤ 299) → (∀ r, t r = ⟨s, b⟩) →
      (CalendlyApp.remove_user_from_organization app t uuid).ret
          = .error (.httpError s b) ∧
        (CalendlyApp.remove_user_from_organization app t uuid).calls.length = 1) ∧
    (∀ app (t : Transport) (s : Nat) (b : Option Json) (s1 s2 s3 s4 s5 : Json),
      ¬(200 ≤ s ∧ s ≤ 299) → (∀ r, t r = ⟨s, b⟩) →
      (CalendlyApp.list_organization_memberships app t s1 s2 s3 s4 s5).ret
          = .error (.httpError s b) ∧
        (CalendlyApp.list_organization_memberships app t s1 s2 s3 s4 s5).calls.length = 1) ∧
    (∀ app (t : Transport) (s : Nat) (b : Option Json) (webhook_uuid : Json),
      webhook_uuid.isNone = false → ¬(200 ≤ s ∧ s ≤ 299) → (∀ r, t r = ⟨s, b⟩) →
      (CalendlyApp.get_webhook_subscription app t webhook_uuid).ret
          = .error (.httpError s b) ∧
        (CalendlyApp.get_webhook_subscription app t webhook_uuid).calls.length = 1) ∧
    (∀ app (t : Transport) (s : Nat) (b : Option Json) (webhook_uuid : Json),
      webhook_uuid.isNone = false → ¬(200 ≤ s ∧ s ≤ 299) → (∀ r, t r = ⟨s, b⟩) →
      (CalendlyApp.delete_webhook_subscription app t webhook_uuid).ret
          = .error (.httpError s b) ∧
        (CalendlyApp.delete_webhook_subscription app t webhook_uuid).calls.length = 1) ∧
    (∀ app (t : Transport) (s : Nat) (b : Option Json) (s1 s2 s3 s4 s5 s6 : Json),
      ¬(200 ≤ s ∧ s ≤ 299) → (∀ r, t r = ⟨s, b⟩) →
      (CalendlyApp.list_webhook_subscriptions app t s1 s2 s3 s4 s5 s6).ret
          = .error (.httpError s b) ∧
        (CalendlyApp.list_webhook_subscriptions app t s1 s2 s3 s4 s5 s6).calls.length = 1) ∧
    (∀ app (t : Transport) (s : Nat) (b : Option Json) (s1 s2 s3 s4 s5 s6 s7 : Json),
      ¬(200 ≤ s ∧ s ≤ 299) → (∀ r, t r = ⟨s, b⟩) →
      (CalendlyApp.create_webhook_subscription app t s1 s2 s3 s4 s5 s6 s7).ret
          = .error (.httpError s b) ∧
        (CalendlyApp.create_webhook_subscription app t s1 s2 s3 s4 s5 s6 s7).calls.length = 1) ∧
    (∀ app (t : Transport) (s : Nat) (b : Option Json) (s1 s2 s3 : Json),
      ¬(200 ≤ s ∧ s ≤ 299) → (∀ r, t r = ⟨s, b⟩) →
      (CalendlyApp.create_single_use_scheduling_link app t s1 s2 s3).ret
          = .error (.httpError s b) ∧
        (CalendlyApp.create_single_use_scheduling_link app t s1 s2 s3).calls.length = 1) ∧
    (∀ app (t : Transport) (s : Nat) (b : Option Json) (s1 : Json),
      ¬(200 ≤ s ∧ s ≤ 299) → (∀ r, t r = ⟨s, b⟩) →
      (CalendlyApp.delete_invitee_data app t s1).ret = .error (.httpError s b) ∧
        (CalendlyApp.delete_invitee_data app t s1).calls.length = 1) ∧
    (∀ app (t : Transport) (s : Nat) (b : Option Json) (s1 s2 : Json),
      ¬(200 ≤ s ∧ s ≤ 299) → (∀ r, t r = ⟨s, b⟩) →
      (CalendlyApp.delete_scheduled_event_data app t s1 s2).ret
          = .error (.httpError s b) ∧
        (CalendlyApp.delete_scheduled_event_data app t s1 s2).calls.length = 1) ∧
    (∀ app (t : Transport) (s : Nat) (b : Option Json) (uuid : Json),
      uuid.isNone = false → ¬(200 ≤ s ∧ s ≤ 299) → (∀ r, t r = ⟨s, b⟩) →
      (CalendlyApp.get_invitee_no_show app t uuid).ret = .error (.httpError s b) ∧
        (CalendlyApp.get_invitee_no_show app t uuid).calls.length = 1) ∧
    (∀ app (t : Transport) (s : Nat) (b : Option Json) (uuid : Json),
      uuid.isNone = false → ¬(200 ≤ s ∧ s ≤ 299) → (∀ r, t r = ⟨s, b⟩) →
      (CalendlyApp.delete_invitee_no_show app t uuid).ret = .error (.httpError s b) ∧
        (CalendlyApp.delete_invitee_no_show app t uuid).calls.length = 1) ∧
    (∀ app (t : Transport) (s : Nat) (b : Option Json) (s1 : Json),
      ¬(200 ≤ s ∧ s ≤ 299) → (∀ r, t r = ⟨s, b⟩) →
      (CalendlyApp.create_invitee_no_show app t s1).ret = .error (.httpError s b) ∧
        (CalendlyApp.create_invitee_no_show app t s1).calls.length = 1) ∧
    (∀ app (t : Transport) (s : Nat) (b : Option Json) (uuid : Json),
      uuid.isNone = false → ¬(200 ≤ s ∧ s ≤ 299) → (∀ r, t r = ⟨s, b⟩) →
      (CalendlyApp.get_group app t uuid).ret = .error (.httpError s b) ∧
        (CalendlyApp.get_group app t uuid).calls.length = 1) ∧
    (∀ app (t : Transport) (s : Nat) (b : Option Json) (s1 s2 s3 : Json),
      ¬(200 ≤ s ∧ s ≤ 299) → (∀ r, t r = ⟨s, b⟩) →
      (CalendlyApp.list_groups app t s1 s2 s3).ret = .error (.httpError s b) ∧
        (CalendlyApp.list_groups app t s1 s2 s3).calls.length = 1) ∧
    (∀ app (t : Transport) (s : Nat) (b : Option Json) (uuid : Json),
      uuid.isNone = false → ¬(200 ≤ s ∧ s ≤ 299) → (∀ r, t r = ⟨s, b⟩) →
      (CalendlyApp.get_group_relationship app t uuid).ret = .error (.httpError s b) ∧
        (CalendlyApp.get_group_relationship app t uuid).calls.length = 1) ∧
    (∀ app (t : Transport) (s : Nat) (b : Option Json) (s1 s2 s3 s4 s5 : Json),
      ¬(200 ≤ s ∧ s ≤ 299) → (∀ r, t r = ⟨s, b⟩) →
      (CalendlyApp.list_group_relationships app t s1 s2 s3 s4 s5).ret
          = .error (.httpError s b) ∧
        (CalendlyApp.list_group_relationships app t s1 s2 s3 s4 s5).calls.length = 1) ∧
    (∀ app (t : Transport) (s : Nat) (b : Option Json) (uuid : Json),
      uuid.isNone = false → ¬(200 ≤ s ∧ s ≤ 299) → (∀ r, t r = ⟨s, b⟩) →
      (CalendlyApp.get_routing_form app t uuid).ret = .error (.httpError s b) ∧
        (CalendlyApp.get_routing_form app t uuid).calls.length = 1) ∧
    (∀ app (t : Transport) (s : Nat) (b : Option Json) (s1 s2 s3 s4 : Json),
      ¬(200 ≤ s ∧ s ≤ 299) → (∀ r, t r = ⟨s, b⟩) →
      (CalendlyApp.list_routing_forms app t s1 s2 s3 s4).ret
          = .error (.httpError s b) ∧
        (CalendlyApp.list_routing_forms app t s1 s2 s3 s4).calls.length = 1) ∧
    (∀ app (t : Transport) (s : Nat) (b : Option Json) (uuid : Json),
      uuid.isNone = false → ¬(200 ≤ s ∧ s ≤ 299) → (∀ r, t r = ⟨s, b⟩) →
      (CalendlyApp.get_routing_form_submission app t uuid).ret
          = .error (.httpError s b) ∧
        (CalendlyApp.get_routing_form_submission app t uuid).calls.length = 1) ∧
    (∀ app (t : Transport) (s : Nat) (b : Option Json) (s1 s2 s3 s4 : Json),
      ¬(200 ≤ s ∧ s ≤ 299) → (∀ r, t r = ⟨s, b⟩) →
      (CalendlyApp.list_routing_form_submissions app t s1 s2 s3 s4).ret
          = .error (.httpError s b) ∧
        (CalendlyApp.list_routing_form_submissions app t s1 s2 s3 s4).calls.length = 1) ∧
    (∀ app (t : Transport) (s : Nat) (b : Option Json) (s1 s2 s3 : Json),
      ¬(200 ≤ s ∧ s ≤ 299) → (∀ r, t r = ⟨s, b⟩) →
      (CalendlyApp.list_event_type_available_times app t s1 s2 s3).ret
          = .error (.httpError s b) ∧
        (CalendlyApp.list_event_type_available_times app t s1 s2 s3).calls.length = 1) ∧
    (∀ app (t : Transport) (s : Nat) (b : Option Json)
        (s1 s2 s3 s4 s5 s6 s7 s8 s9 s10 : Json),
      ¬(200 ≤ s ∧ s ≤ 299) → (∀ r, t r = ⟨s, b⟩) →
      (CalendlyApp.list_activity_log_entries app t s1 s2 s3 s4 s5 s6 s7 s8 s9 s10).ret
          = .error (.httpError s b) ∧
        (CalendlyApp.list_activity_log_entries app t s1 s2 s3 s4 s5 s6 s7 s8 s9 s10).calls.length = 1) ∧
    (∀ app (t : Transport) (s : Nat) (b : Option Json)
        (s1 s2 s3 s4 s5 s6 s7 s8 s9 s10 : Json),
      ¬(200 ≤ s ∧ s ≤ 299) → (∀ r, t r = ⟨s, b⟩) →
      (CalendlyApp.create_share app t s1 s2 s3 s4 s5 s6 s7 s8 s9 s10).ret
          = .error (.httpError s b) ∧
        (CalendlyApp.create_share app t s1 s2 s3 s4 s5 s6 s7 s8 s9 s10).calls.length = 1) ∧
    (∀ app (t : Transport) (s : Nat) (b : Option Json) (s1 s2 s3 : Json),
      ¬(200 ≤ s ∧ s ≤ 299) → (∀ r, t r = ⟨s, b⟩) →
      (CalendlyApp.list_user_busy_times app t s1 s2 s3).ret
          = .error (.httpError s b) ∧
        (CalendlyApp.list_user_busy_times app t s1 s2 s3).calls.length = 1) ∧
    (∀ app (t : Transport) (s : Nat) (b : Option Json) (uuid : Json),
      uuid.isNone = false → ¬(200 ≤ s ∧ s ≤ 299) → (∀ r, t r = ⟨s, b⟩) →
      (CalendlyApp.get_user_availability_schedule app t uuid).ret
          = .error (.httpError s b) ∧
        (CalendlyApp.get_user_availability_schedule app t uuid).calls.length = 1) ∧
    (∀ app (t : Transport) (s : Nat) (b : Option Json) (s1 : Json),
      ¬(200 ≤ s ∧ s ≤ 299) → (∀ r, t r = ⟨s, b⟩) →
      (CalendlyApp.list_user_availability_schedules app t s1).ret
          = .error (.httpError s b) ∧
        (CalendlyApp.list_user_availability_schedules app t s1).calls.length = 1) ∧
    (∀ app (t : Transport) (s : Nat) (b : Option Json) (s1 s2 s3 : Json),
      ¬(200 ≤ s ∧ s ≤ 299) → (∀ r, t r = ⟨s, b⟩) →
      (CalendlyApp.list_event_type_hosts app t s1 s2 s3).ret
          = .error (.httpError s b) ∧
        (CalendlyApp.list_event_type_hosts app t s1 s2 s3).calls.length = 1) ∧
    (∀ app (t : Transport) (s : Nat) (b : Option Json) (s1 s2 s3 s4 s5 s6 s7 : Json),
      ¬(200 ≤ s ∧ s ≤ 299) → (∀ r, t r = ⟨s, b⟩) →
      (CalendlyApp.create_one_off_event_type app t s1 s2 s3 s4 s5 s6 s7).ret
          = .error (.httpError s b) ∧
        (CalendlyApp.create_one_off_event_type app t s1 s2 s3 s4 s5 s6 s7).calls.length = 1) ∧
    (∀ app (t : Transport) (s : Nat) (b : Option Json) (s1 s2 s3 s4 : Json),
      ¬(200 ≤ s ∧ s ≤ 299) → (∀ r, t r = ⟨s, b⟩) →
      (CalendlyApp.get_sample_webhook_data app t s1 s2 s3 s4).ret
          = .error (.httpError s b) ∧
        (CalendlyApp.get_sample_webhook_data app t s1 s2 s3 s4).calls.length = 1) := by
  refine ⟨?_, ?_, ?_, ?_, ?_, ?_, ?_, ?_, ?_, ?_, ?_, ?_, ?_, ?_, ?_, ?_,
    ?_, ?_, ?_, ?_, ?_, ?_, ?_, ?_, ?_, ?_, ?_, ?_, ?_, ?_, ?_, ?_, ?_,
    ?_, ?_, ?_, ?_, ?_, ?_, ?_, ?_, ?_⟩ <;> intros <;> constructor <;>
    simp_all [CalendlyApp.list_event_invitees, CalendlyApp.get_event,
      CalendlyApp.get_event_invitee, CalendlyApp.list_events,
      CalendlyApp.get_event_type, CalendlyApp.list_user_sevent_types,
      CalendlyApp.get_user, CalendlyApp.get_current_user,
      CalendlyApp.list_organization_invitations,
      CalendlyApp.invite_user_to_organization,
      CalendlyApp.get_organization_invitation,
      CalendlyApp.revoke_user_sorganization_invitation,
      CalendlyApp.get_organization_membership,
      CalendlyApp.remove_user_from_organization,
      CalendlyApp.list_organization_memberships,
      CalendlyApp.get_webhook_subscription,
      CalendlyApp.delete_webhook_subscription,
      CalendlyApp.list_webhook_subscriptions,
      CalendlyApp.create_webhook_subscription,
      CalendlyApp.create_single_use_scheduling_link,
      CalendlyApp.delete_invitee_data,
      CalendlyApp.delete_scheduled_event_data,
      CalendlyApp.get_invitee_no_show, CalendlyApp.delete_invitee_no_show,
      CalendlyApp.create_invitee_no_show, CalendlyApp.get_group,
      CalendlyApp.list_groups, CalendlyApp.get_group_relationship,
      CalendlyApp.list_group_relationships, CalendlyApp.get_routing_form,
      CalendlyApp.list_routing_forms,
      CalendlyApp.get_routing_form_submission,
      CalendlyApp.list_routing_form_submissions,
      CalendlyApp.list_event_type_available_times,
      CalendlyApp.list_activity_log_entries, CalendlyApp.create_share,
      CalendlyApp.list_user_busy_times,
      CalendlyApp.get_user_availability_schedule,
      CalendlyApp.list_user_availability_schedules,
      CalendlyApp.list_event_type_hosts,
      CalendlyApp.create_one_off_event_type,
      CalendlyApp.get_sample_webhook_data,
      doGET, doPOST, doDELETE, handleResponse]

/-- Witness for C4: `get_event` against a transport answering 404 with
body `{"message":"not found"}` fails with that HTTP error after exactly
one request. -/
theorem c4_http_error_propagation_witness :
    (Json.str "u").isNone = false ∧ ¬(200 ≤ 404 ∧ 404 ≤ 299) ∧
    ((CalendlyApp.get_event (CalendlyApp.init Option.none)
        (fun _ => ⟨404, some (Json.obj [("message", Json.str "not found")])⟩)
        (Json.str "u")).ret
      = .error (.httpError 404 (some (Json.obj [("message", Json.str "not found")]))) ∧
      (CalendlyApp.get_event (CalendlyApp.init Option.none)
        (fun _ => ⟨404, some (Json.obj [("message", Json.str "not found")])⟩)
        (Json.str "u")).calls.length = 1) :=
  ⟨rfl, by decide,
    c4_http_error_propagation.2.1 (CalendlyApp.init Option.none)
      (fun _ => ⟨404, some (Json.obj [("message", Json.str "not found")])⟩)
      404 (some (Json.obj [("message", Json.str "not found")]))
      (Json.str "u") rfl (by decide) (fun _ => rfl)⟩

/-- Claim C5: each delete/revoke operation unconditionally decodes the
response body as JSON after a 2xx status, so a 2xx response with an empty
(non-JSON) body makes the operation fail with a decode error instead of
returning a no-content result. -/
theorem c5_delete_decodes_body :
    (∀ app (t : Transport) (s : Nat) (uuid : Json),
      uuid.isNone = false → 200 ≤ s → s ≤ 299 →
      (∀ r, t r = ⟨s, Option.none⟩) →
      (CalendlyApp.remove_user_from_organization app t uuid).ret
        = .error .decodeError) ∧
    (∀ app (t : Transport) (s : Nat) (webhook_uuid : Json),
      webhook_uuid.isNone = false → 200 ≤ s → s ≤ 299 →
      (∀ r, t r = ⟨s, Option.none⟩) →
      (CalendlyApp.delete_webhook_subscription app t webhook_uuid).ret
        = .error .decodeError) ∧
    (∀ app (t : Transport) (s : Nat) (uuid : Json),
      uuid.isNone = false → 200 ≤ s → s ≤ 299 →
      (∀ r, t r = ⟨s, Option.none⟩) →
      (CalendlyApp.delete_invitee_no_show app t uuid).ret
        = .error .decodeError) ∧
    (∀ app (t : Transport) (s : Nat) (org_uuid uuid : Json),
      org_uuid.isNone = false → uuid.isNone = false → 200 ≤ s → s ≤ 299 →
      (∀ r, t r = ⟨s, Option.none⟩) →
      (CalendlyApp.revoke_user_sorganization_invitation app t org_uuid uuid).ret
        = .error .decodeError) := by
  refine ⟨?_, ?_, ?_, ?_⟩ <;> intros <;>
    simp_all [CalendlyApp.remove_user_from_organization,
      CalendlyApp.delete_webhook_subscription,
      CalendlyApp.delete_invitee_no_show,
      CalendlyApp.revoke_user_sorganization_invitation,
      doDELETE, handleResponse]

/-- Witness for C5: deleting an organization membership when the transport
answers 204 with an empty body fails with the decode error. -/
theorem c5_delete_decodes_body_witness :
    (Json.str "mem-1").isNone = false ∧ 200 ≤ 204 ∧ 204 ≤ 299 ∧
    (CalendlyApp.remove_user_from_organization (CalendlyApp.init Option.none)
        (fun _ => ⟨204, Option.none⟩) (Json.str "mem-1")).ret
      = .error .decodeError :=
  ⟨rfl, by decide, by decide,
    c5_delete_decodes_body.1 (CalendlyApp.init Option.none)
      (fun _ => ⟨204, Option.none⟩) 204 (Json.str "mem-1") rfl
      (by decide) (by decide) (fun _ => rfl)⟩

/-- Claim C6: `get_event("abc-123")` hands the transport exactly one
request: a GET to `https://api.calendly.com/scheduled_events/abc-123`
with an empty query mapping and no request body. -/
theorem c6_get_event_request_shape :
    ∀ (t : Transport),
      ((CalendlyApp.init Option.none).get_event t (Json.str "abc-123")).calls
        = [⟨.GET, "https://api.calendly.com/scheduled_events/abc-123", [],
            Option.none⟩] :=
  fun _ => rfl

/-- Claim C7: `invite_user_to_organization("org-1", email="a@b.com")`
hands the transport exactly one request: a POST to
`https://api.calendly.com/organizations/org-1/invitations` with an empty
query mapping and body exactly `email = "a@b.com"`. -/
theorem c7_invite_request_shape :
    ∀ (t : Transport),
      ((CalendlyApp.init Option.none).invite_user_to_organization t
          (Json.str "org-1") (Json.str "a@b.com")).calls
        = [⟨.POST, "https://api.calendly.com/organizations/org-1/invitations",
            [], some [("email", Json.str "a@b.com")]⟩] :=
  fun _ => rfl

/-- Claim C8: the constructor sets `base_url` to the fixed origin, keeps
the supplied integration, and every operation leaves the client state
unchanged whether it fails on validation, fails on the response, or
succeeds (no operation writes any client field after `__init__`). -/
theorem c8_operations_stateless :
    (∀ i, (CalendlyApp.init i).base_url = "https://api.calendly.com" ∧
      (CalendlyApp.init i).integration = i ∧
      (CalendlyApp.init i).name = "calendly") ∧
    (∀ app (t : Transport) (s1 s2 s3 s4 s5 s6 : Json),
      (CalendlyApp.list_event_invitees app t s1 s2 s3 s4 s5 s6).app = app) ∧
    (∀ app (t : Transport) (s1 : Json),
      (CalendlyApp.get_event app t s1).app = app) ∧
    (∀ app (t : Transport) (s1 s2 : Json),
      (CalendlyApp.get_event_invitee app t s1 s2).app = app) ∧
    (∀ app (t : Transport) (s1 s2 s3 s4 s5 s6 s7 s8 s9 s10 : Json),
      (CalendlyApp.list_events app t s1 s2 s3 s4 s5 s6 s7 s8 s9 s10).app = app) ∧
    (∀ app (t : Transport) (s1 : Json),
      (CalendlyApp.get_event_type app t s1).app = app) ∧
    (∀ app (t : Transport) (s1 s2 s3 s4 s5 s6 s7 s8 : Json),
      (CalendlyApp.list_user_sevent_types app t s1 s2 s3 s4 s5 s6 s7 s8).app = app) ∧
    (∀ app (t : Transport) (s1 : Json),
      (CalendlyApp.get_user app t s1).app = app) ∧
    (∀ app (t : Transport),
      (CalendlyApp.get_current_user app t).app = app) ∧
    (∀ app (t : Transport) (s1 s2 s3 s4 s5 s6 : Json),
      (CalendlyApp.list_organization_invitations app t s1 s2 s3 s4 s5 s6).app = app) ∧
    (∀ app (t : Transport) (s1 s2 : Json),
      (CalendlyApp.invite_user_to_organization app t s1 s2).app = app) ∧
    (∀ app (t : Transport) (s1 s2 : Json),
      (CalendlyApp.get_organization_invitation app t s1 s2).app = app) ∧
    (∀ app (t : Transport) (s1 s2 : Json),
      (CalendlyApp.revoke_user_sorganization_invitation app t s1 s2).app = app) ∧
    (∀ app (t : Transport) (s1 : Json),
      (CalendlyApp.get_organization_membership app t s1).app = app) ∧
    (∀ app (t : Transport) (s1 : Json),
      (CalendlyApp.remove_user_from_organization app t s1).app = app) ∧
    (∀ app (t : Transport) (s1 s2 s3 s4 s5 : Json),
      (CalendlyApp.list_organization_memberships app t s1 s2 s3 s4 s5).app = app) ∧
    (∀ app (t : Transport) (s1 : Json),
      (CalendlyApp.get_webhook_subscription app t s1).app = app) ∧
    (∀ app (t : Transport) (s1 : Json),
      (CalendlyApp.delete_webhook_subscription app t s1).app = app) ∧
    (∀ app (t : Transport) (s1 s2 s3 s4 s5 s6 : Json),
      (CalendlyApp.list_webhook_subscriptions app t s1 s2 s3 s4 s5 s6).app = app) ∧
    (∀ app (t : Transport) (s1 s2 s3 s4 s5 s6 s7 : Json),
      (CalendlyApp.create_webhook_subscription app t s1 s2 s3 s4 s5 s6 s7).app = app) ∧
    (∀ app (t : Transport) (s1 s2 s3 : Json),
      (CalendlyApp.create_single_use_scheduling_link app t s1 s2 s3).app = app) ∧
    (∀ app (t : Transport) (s1 : Json),
      (CalendlyApp.delete_invitee_data app t s1).app = app) ∧
    (∀ app (t : Transport) (s1 s2 : Json),
      (CalendlyApp.delete_scheduled_event_data app t s1 s2).app = app) ∧
    (∀ app (t : Transport) (s1 : Json),
      (CalendlyApp.get_invitee_no_show app t s1).app = app) ∧
    (∀ app (t : Transport) (s1 : Json),
      (CalendlyApp.delete_invitee_no_show app t s1).app = app) ∧
    (∀ app (t : Transport) (s1 : Json),
      (CalendlyApp.create_invitee_no_show app t s1).app = app) ∧
    (∀ app (t : Transport) (s1 : Json),
      (CalendlyApp.get_group app t s1).app = app) ∧
    (∀ app (t : Transport) (s1 s2 s3 : Json),
      (CalendlyApp.list_groups app t s1 s2 s3).app = app) ∧
    (∀ app (t : Transport) (s1 : Json),
      (CalendlyApp.get_group_relationship app t s1).app = app) ∧
    (∀ app (t : Transport) (s1 s2 s3 s4 s5 : Json),
      (CalendlyApp.list_group_relationships app t s1 s2 s3 s4 s5).app = app) ∧
    (∀ app (t : Transport) (s1 : Json),
      (CalendlyApp.get_routing_form app t s1).app = app) ∧
    (∀ app (t : Transport) (s1 s2 s3 s4 : Json),
      (CalendlyApp.list_routing_forms app t s1 s2 s3 s4).app = app) ∧
    (∀ app (t : Transport) (s1 : Json),
      (CalendlyApp.get_routing_form_submission app t s1).app = app) ∧
    (∀ app (t : Transport) (s1 s2 s3 s4 : Json),
      (CalendlyApp.list_routing_form_submissions app t s1 s2 s3 s4).app = app) ∧
    (∀ app (t : Transport) (s1 s2 s3 : Json),
      (CalendlyApp.list_event_type_available_times app t s1 s2 s3).app = app) ∧
    (∀ app (t : Transport) (s1 s2 s3 s4 s5 s6 s7 s8 s9 s10 : Json),
      (CalendlyApp.list_activity_log_entries app t s1 s2 s3 s4 s5 s6 s7 s8 s9 s10).app = app) ∧
    (∀ app (t : Transport) (s1 s2 s3 s4 s5 s6 s7 s8 s9 s10 : Json),
      (CalendlyApp.create_share app t s1 s2 s3 s4 s5 s6 s7 s8 s9 s10).app = app) ∧
    (∀ app (t : Transport) (s1 s2 s3 : Json),
      (CalendlyApp.list_user_busy_times app t s1 s2 s3).app = app) ∧
    (∀ app (t : Transport) (s1 : Json),
      (CalendlyApp.get_user_availability_schedule app t s1).app = app) ∧
    (∀ app (t : Transport) (s1 : Json),
      (CalendlyApp.list_user_availability_schedules app t s1).app = app) ∧
    (∀ app (t : Transport) (s1 s2 s3 : Json),
      (CalendlyApp.list_event_type_hosts app t s1 s2 s3).app = app) ∧
    (∀ app (t : Transport) (s1 s2 s3 s4 s5 s6 s7 : Json),
      (CalendlyApp.create_one_off_event_type app t s1 s2 s3 s4 s5 s6 s7).app = app) ∧
    (∀ app (t : Transport) (s1 s2 s3 s4 : Json),
      (CalendlyApp.get_sample_webhook_data app t s1 s2 s3 s4).app = app) := by
  refine ⟨fun i => ⟨rfl, rfl, rfl⟩, ?_, ?_, ?_, ?_, ?_, ?_, ?_, ?_, ?_, ?_,
    ?_, ?_, ?_, ?_, ?_, ?_, ?_, ?_, ?_, ?_, ?_, ?_, ?_, ?_, ?_, ?_, ?_,
    ?_, ?_, ?_, ?_, ?_, ?_, ?_, ?_, ?_, ?_, ?_, ?_, ?_, ?_, ?_⟩
  all_goals intros
  all_goals simp only [CalendlyApp.list_event_invitees, CalendlyApp.get_event,
    CalendlyApp.get_event_invitee, CalendlyApp.list_events,
    CalendlyApp.get_event_type, CalendlyApp.list_user_sevent_types,
    CalendlyApp.get_user, CalendlyApp.get_current_user,
    CalendlyApp.list_organization_invitations,
    CalendlyApp.invite_user_to_organization,
    CalendlyApp.get_organization_invitation,
    CalendlyApp.revoke_user_sorganization_invitation,
    CalendlyApp.get_organization_membership,
    CalendlyApp.remove_user_from_organization,
    CalendlyApp.list_organization_memberships,
    CalendlyApp.get_webhook_subscription,
    CalendlyApp.delete_webhook_subscription,
    CalendlyApp.list_webhook_subscriptions,
    CalendlyApp.create_webhook_subscription,
    CalendlyApp.create_single_use_scheduling_link,
    CalendlyApp.delete_invitee_data, CalendlyApp.delete_scheduled_event_data,
    CalendlyApp.get_invitee_no_show, CalendlyApp.delete_invitee_no_show,
    CalendlyApp.create_invitee_no_show, CalendlyApp.get_group,
    CalendlyApp.list_groups, CalendlyApp.get_group_relationship,
    CalendlyApp.list_group_relationships, CalendlyApp.get_routing_form,
    CalendlyApp.list_routing_forms, CalendlyApp.get_routing_form_submission,
    CalendlyApp.list_routing_form_submissions,
    CalendlyApp.list_event_type_available_times,
    CalendlyApp.list_activity_log_entries, CalendlyApp.create_share,
    CalendlyApp.list_user_busy_times,
    CalendlyApp.get_user_availability_schedule,
    CalendlyApp.list_user_availability_schedules,
    CalendlyApp.list_event_type_hosts,
    CalendlyApp.create_one_off_event_type,
    CalendlyApp.get_sample_webhook_data, doGET, doPOST, doDELETE]
  all_goals repeat' split
  all_goals rfl

/-- Claim C9: the required-parameter guards reject only `None`: any
non-`None` value — the empty string included — passes validation and is
substituted verbatim (via Python `str`) into the URL path, and the
request is issued; in particular `get_event("")` issues a GET to
`https://api.calendly.com/scheduled_events/` (empty final path segment),
not a missing-parameter error. -/
theorem c9_guard_rejects_only_none :
    (∀ (t : Transport),
      ((CalendlyApp.init Option.none).get_event t (Json.str "")).calls
        = [⟨.GET, "https://api.calendly.com/scheduled_events/", [],
            Option.none⟩]) ∧
    (∀ (t : Transport),
      ((CalendlyApp.init Option.none).get_organization_membership t
          (Json.str "")).calls
        = [⟨.GET, "https://api.calendly.com/organization_memberships/", [],
            Option.none⟩]) ∧
    (∀ app (t : Transport) (v s1 s2 s3 s4 s5 : Json), v.isNone = false →
      (CalendlyApp.list_event_invitees app t v s1 s2 s3 s4 s5).calls
        = [⟨.GET, app.base_url ++ "/scheduled_events/" ++ pyStr v ++ "/invitees",
            filterNotNone [("status", s1), ("sort", s2), ("email", s3),
              ("page_token", s4), ("count", s5)], Option.none⟩]) ∧
    (∀ app (t : Transport) (v : Json), v.isNone = false →
      (CalendlyApp.get_event app t v).calls
        = [⟨.GET, app.base_url ++ "/scheduled_events/" ++ pyStr v, [],
            Option.none⟩]) ∧
    (∀ app (t : Transport) (v1 v2 : Json),
      v1.isNone = false → v2.isNone = false →
      (CalendlyApp.get_event_invitee app t v1 v2).calls
        = [⟨.GET, app.base_url ++ "/scheduled_events/" ++ pyStr v1
              ++ "/invitees/" ++ pyStr v2, [], Option.none⟩]) ∧
    (∀ app (t : Transport) (v : Json), v.isNone = false →
      (CalendlyApp.get_event_type app t v).calls
        = [⟨.GET, app.base_url ++ "/event_types/" ++ pyStr v, [],
            Option.none⟩]) ∧
    (∀ app (t : Transport) (v : Json), v.isNone = false →
      (CalendlyApp.get_user app t v).calls
        = [⟨.GET, app.base_url ++ "/users/" ++ pyStr v, [], Option.none⟩]) ∧
    (∀ app (t : Transport) (v s1 s2 s3 s4 s5 : Json), v.isNone = false →
      (CalendlyApp.list_organization_invitations app t v s1 s2 s3 s4 s5).calls
        = [⟨.GET, app.base_url ++ "/organizations/" ++ pyStr v ++ "/invitations",
            filterNotNone [("count", s1), ("page_token", s2), ("sort", s3),
              ("email", s4), ("status", s5)], Option.none⟩]) ∧
    (∀ app (t : Transport) (v s1 : Json), v.isNone = false →
      (CalendlyApp.invite_user_to_organization app t v s1).calls
        = [⟨.POST, app.base_url ++ "/organizations/" ++ pyStr v ++ "/invitations",
            [], some (filterNotNone [("email", s1)])⟩]) ∧
    (∀ app (t : Transport) (v1 v2 : Json),
      v1.isNone = false → v2.isNone = false →
      (CalendlyApp.get_organization_invitation app t v1 v2).calls
        = [⟨.GET, app.base_url ++ "/organizations/" ++ pyStr v1
              ++ "/invitations/" ++ pyStr v2, [], Option.none⟩]) ∧
    (∀ app (t : Transport) (v1 v2 : Json),
      v1.isNone = false → v2.isNone = false →
      (CalendlyApp.revoke_user_sorganization_invitation app t v1 v2).calls
        = [⟨.DELETE, app.base_url ++ "/organizations/" ++ pyStr v1
              ++ "/invitations/" ++ pyStr v2, [], Option.none⟩]) ∧
    (∀ app (t : Transport) (v : Json), v.isNone = false →
      (CalendlyApp.get_organization_membership app t v).calls
        = [⟨.GET, app.base_url ++ "/organization_memberships/" ++ pyStr v, [],
            Option.none⟩]) ∧
    (∀ app (t : Transport) (v : Json), v.isNone = false →
      (CalendlyApp.remove_user_from_organization app t v).calls
        = [⟨.DELETE, app.base_url ++ "/organization_memberships/" ++ pyStr v,
            [], Option.none⟩]) ∧
    (∀ app (t : Transport) (v : Json), v.isNone = false →
      (CalendlyApp.get_webhook_subscription app t v).calls
        = [⟨.GET, app.base_url ++ "/webhook_subscriptions/" ++ pyStr v, [],
            Option.none⟩]) ∧
    (∀ app (t : Transport) (v : Json), v.isNone = false →
      (CalendlyApp.delete_webhook_subscription app t v).calls
        = [⟨.DELETE, app.base_url ++ "/webhook_subscriptions/" ++ pyStr v, [],
            Option.none⟩]) ∧
    (∀ app (t : Transport) (v : Json), v.isNone = false →
      (CalendlyApp.get_invitee_no_show app t v).calls
        = [⟨.GET, app.base_url ++ "/invitee_no_shows/" ++ pyStr v, [],
            Option.none⟩]) ∧
    (∀ app (t : Transport) (v : Json), v.isNone = false →
      (CalendlyApp.delete_invitee_no_show app t v).calls
        = [⟨.DELETE, app.base_url ++ "/invitee_no_shows/" ++ pyStr v, [],
            Option.none⟩]) ∧
    (∀ app (t : Transport) (v : Json), v.isNone = false →
      (CalendlyApp.get_group app t v).calls
        = [⟨.GET, app.base_url ++ "/groups/" ++ pyStr v, [], Option.none⟩]) ∧
    (∀ app (t : Transport) (v : Json), v.isNone = false →
      (CalendlyApp.get_group_relationship app t v).calls
        = [⟨.GET, app.base_url ++ "/group_relationships/" ++ pyStr v, [],
            Option.none⟩]) ∧
    (∀ app (t : Transport) (v : Json), v.isNone = false →
      (CalendlyApp.get_routing_form app t v).calls
        = [⟨.GET, app.base_url ++ "/routing_forms/" ++ pyStr v, [],
            Option.none⟩]) ∧
    (∀ app (t : Transport) (v : Json), v.isNone = false →
      (CalendlyApp.get_routing_form_submission app t v).calls
        = [⟨.GET, app.base_url ++ "/routing_form_submissions/" ++ pyStr v, [],
            Option.none⟩]) ∧
    (∀ app (t : Transport) (v : Json), v.isNone = false →
      (CalendlyApp.get_user_availability_schedule app t v).calls
        = [⟨.GET, app.base_url ++ "/user_availability_schedules/" ++ pyStr v,
            [], Option.none⟩]) := by
  refine ⟨fun t => rfl, fun t => rfl, ?_, ?_, ?_, ?_, ?_, ?_, ?_, ?_, ?_,
    ?_, ?_, ?_, ?_, ?_, ?_, ?_, ?_, ?_, ?_, ?_⟩ <;> intros <;>
    simp_all [CalendlyApp.list_event_invitees, CalendlyApp.get_event,
      CalendlyApp.get_event_invitee, CalendlyApp.get_event_type,
      CalendlyApp.get_user, CalendlyApp.list_organization_invitations,
      CalendlyApp.invite_user_to_organization,
      CalendlyApp.get_organization_invitation,
      CalendlyApp.revoke_user_sorganization_invitation,
      CalendlyApp.get_organization_membership,
      CalendlyApp.remove_user_from_organization,
      CalendlyApp.get_webhook_subscription,
      CalendlyApp.delete_webhook_subscription,
      CalendlyApp.get_invitee_no_show, CalendlyApp.delete_invitee_no_show,
      CalendlyApp.get_group, CalendlyApp.get_group_relationship,
      CalendlyApp.get_routing_form, CalendlyApp.get_routing_form_submission,
      CalendlyApp.get_user_availability_schedule, doGET, doPOST, doDELETE]

/-- Witness for C9: `get_event` with the non-`None` falsy value `""`
issues the GET with the empty segment substituted. -/
theorem c9_guard_rejects_only_none_witness :
    (Json.str "").isNone = false ∧
    (CalendlyApp.get_event (CalendlyApp.init Option.none)
        (fun _ => ⟨200, Option.none⟩) (Json.str "")).calls
      = [⟨.GET, "https://api.calendly.com".append ("/scheduled_events/".append
            (pyStr (Json.str ""))), [], Option.none⟩] :=
  ⟨rfl, c9_guard_rejects_only_none.2.2.2.1 (CalendlyApp.init Option.none)
    (fun _ => ⟨200, Option.none⟩) (Json.str "") rfl⟩

/-- Claim C10: each all-optional create (POST) operation invoked with
every body field omitted still issues its POST, with an empty body
mapping — the all-absent case is not rejected locally. -/
theorem c10_all_absent_post :
    (∀ app (t : Transport),
      (CalendlyApp.create_webhook_subscription app t Json.null Json.null
          Json.null Json.null Json.null Json.null Json.null).calls
        = [⟨.POST, app.base_url ++ "/webhook_subscriptions", [], some []⟩]) ∧
    (∀ app (t : Transport),
      (CalendlyApp.create_single_use_scheduling_link app t Json.null
          Json.null Json.null).calls
        = [⟨.POST, app.base_url ++ "/scheduling_links", [], some []⟩]) ∧
    (∀ app (t : Transport),
      (CalendlyApp.create_invitee_no_show app t Json.null).calls
        = [⟨.POST, app.base_url ++ "/invitee_no_shows", [], some []⟩]) ∧
    (∀ app (t : Transport),
      (CalendlyApp.create_share app t Json.null Json.null Json.null Json.null
          Json.null Json.null Json.null Json.null Json.null Json.null).calls
        = [⟨.POST, app.base_url ++ "/shares", [], some []⟩]) ∧
    (∀ app (t : Transport),
      (CalendlyApp.create_one_off_event_type app t Json.null Json.null
          Json.null Json.null Json.null Json.null Json.null).calls
        = [⟨.POST, app.base_url ++ "/one_off_event_types", [], some []⟩]) :=
  ⟨fun app t => rfl, fun app t => rfl, fun app t => rfl, fun app t => rfl,
   fun app t => rfl⟩
